import Mathlib

/-!
Verification of the js-net request orchestration layer (src/index.js).

The file gives a shallow embedding of the module: JavaScript values are an
inductive type, the per-call option bag and process configuration are records,
the transport primitive and the JSON decode hook (both external collaborators)
are function parameters, and each method of the Net class becomes a pure Lean
function. Stateful behaviour (the timeout race, the retry loop, the
notification callbacks) is made explicit: notifications become an emitted
event list, the Promise race becomes a function of the two completion times,
and the retry loop becomes a fuel-indexed recursion whose fuel equals the
retry budget.
-/

/-- JavaScript values as far as this module inspects them: JSON-representable
data. `undefined` is modelled as `Option.none` at use sites. -/
inductive JsVal where
  | null
  | bool (b : Bool)
  | num (n : Int)
  | str (s : String)
  | arr (elems : List JsVal)
  | obj (fields : List (String × JsVal))

/-- JavaScript truthiness of a value (NaN is outside the model; numbers are
integers). Arrays and objects are always truthy. -/
def JsVal.truthy : JsVal → Bool
  | .null => false
  | .bool b => b
  | .num n => n != 0
  | .str s => s != ""
  | .arr _ => true
  | .obj _ => true

/-- Truthiness of a possibly absent value: an absent property is falsy. -/
def jsTruthy : Option JsVal → Bool
  | some v => v.truthy
  | none => false

/-- Property read `v[name]` on a JavaScript value: `none` when the property is
absent or the value is not an object. -/
def getField (v : JsVal) (name : String) : Option JsVal :=
  match v with
  | .obj fields => (fields.find? (fun p => p.1 == name)).map (fun p => p.2)
  | _ => none

/-- The JavaScript expression `a || b` specialised to the uses in
parseResponse: the left operand when truthy, otherwise the right. -/
def jsOrVal (a : Option JsVal) (b : JsVal) : JsVal :=
  match a with
  | some v => if v.truthy then v else b
  | none => b

/-- The raw outcome the Promise race delivers to parseResponse: either a real
transport response (`hasText` true, a body text and a Content-Type header
lookup result) or the synthetic timeout object from Net.timeout, which has a
status and the error fields but no text method (`hasText` false). Fields the
code never reads on a given shape keep their defaults. -/
structure RawOutcome where
  status : Int
  hasText : Bool := false
  body : String := ""
  contentType : Option String := none
  error : Bool := false
  message : Option String := none
  severity : Option String := none
deriving DecidableEq

/-- src/index.js lines 192-204: the object the Deadline Timer resolves with
after the delay: status 444, error true and the timeout message. -/
def timeoutOutcome : RawOutcome :=
  { status := 444
    error := true
    message := some "Request timed out, please retry"
    severity := some "error" }

/-- The per-call option bag (src/index.js doc comment lines 4-16 and every
`options.x` read in the code). Option values are absent, true or false;
`base`, `method`, `mode`, `credentials` are strings and `retries` a number.
`noprefixFlag` models the documented `noprefix` option; the implementation
never reads it (see resolveUrl). -/
structure Options where
  clear : Option Bool := none
  feedback : Option Bool := none
  log : Option Bool := none
  method : Option String := none
  nologout : Option Bool := none
  noparse : Option Bool := none
  noprefixFlag : Option Bool := none
  nobase : Option Bool := none
  progress : Option Bool := none
  raw : Option Bool := none
  throw : Option Bool := none
  retries : Option Int := none
  base : Option String := none
  mode : Option String := none
  credentials : Option String := none
deriving DecidableEq

/-- src/index.js lines 43-48: the `timeouts` sub-object of the merged
configuration, default http timeout 30 seconds. -/
structure Timeouts where
  http : Nat := 30
deriving DecidableEq

/-- src/index.js lines 42-50 (getConfig): the merged process configuration.
`prefixVal` models the `prefix` entry, default empty. -/
structure Config where
  timeouts : Timeouts := {}
  prefixVal : String := ""
deriving DecidableEq

/-- Truthiness of an optional string option, as the code tests it with
`if (options.base)`: present and nonempty. -/
def strTruthy : Option String → Bool
  | some s => s != ""
  | none => false

/-- Whether `p` is a prefix of `s`, on the character lists (computable
counterpart of String.startsWith, used for the `url.startsWith("http")` and
`contentType.indexOf(...) == 0` tests). -/
def strStartsWith (s p : String) : Bool :=
  p.data.isPrefixOf s.data

/-- src/index.js lines 67-75: URL resolution in Net.fetch. Absolute URLs
(starting with "http") pass through; otherwise `base` is prepended when
truthy, else the configured prefix when `nobase` is not set and the prefix is
nonempty, else the current origin. The code consults only `options.nobase`
here; the `noprefix` option of the doc comment is never read. -/
def resolveUrl (config : Config) (options : Options) (origin : String) (url : String) : String :=
  if strStartsWith url "http" = true then url
  else if strTruthy options.base = true then options.base.getD "" ++ "/" ++ url
  else if options.nobase ≠ some true ∧ config.prefixVal ≠ "" then
    config.prefixVal ++ "/" ++ url
  else origin ++ "/" ++ url

/-- The normalized result object `resp` of parseResponse, restricted to the
fields the code reads or writes: `url`, `data`, `error`, `message`,
`severity`, `schema`, `count`, `feedback` and the raw `response`. When the
body is parsed as JSON the whole object is replaced by the parsed value, so
every field may also originate from the response body. -/
structure Envelope where
  url : Option JsVal := none
  data : Option JsVal := none
  error : Option JsVal := none
  message : Option JsVal := none
  severity : Option JsVal := none
  schema : Option JsVal := none
  count : Option JsVal := none
  feedback : Option JsVal := none
  response : Option RawOutcome := none

/-- View of a parsed JSON value as an envelope: the fields parseResponse
subsequently reads off the object that `resp = JSON.parse(data, Json.decode)`
substitutes for the envelope (src/index.js line 109). -/
def envelopeOfJson (v : JsVal) : Envelope :=
  { url := getField v "url"
    data := getField v "data"
    error := getField v "error"
    message := getField v "message"
    severity := getField v "severity"
    schema := getField v "schema"
    count := getField v "count"
    feedback := getField v "feedback"
    response := none }

/-- src/index.js line 107: the Content-Type test
`contentType.indexOf('application/json') == 0` on a possibly absent header. -/
def ctJson : Option String → Bool
  | some c => strStartsWith c "application/json"
  | none => false

/-- src/index.js lines 99-120: the status resolved by parseResponse: the
response status when a response exists, otherwise 444. -/
def respStatus (response : Option RawOutcome) : Int :=
  match response with
  | some r => r.status
  | none => 444

/-- src/index.js lines 96-120: the envelope after body handling. Starts as
`{url}`; when the response has a text body with a JSON content type (and
`noparse` is not set, and the body is nonempty) the envelope is REPLACED by
the parsed JSON object (decode failure leaves `{url}` and drops the body);
otherwise the raw text becomes `data`. The raw response is then stored on the
envelope. `decode` is the external `JSON.parse` with the Json.decode hook. -/
def initialEnvelope (decode : String → Option JsVal) (url : String) (options : Options)
    (response : Option RawOutcome) : Envelope :=
  match response with
  | none => { url := some (.str url) }
  | some r =>
    if r.hasText = true then
      if r.body ≠ "" ∧ ctJson r.contentType = true ∧ options.noparse ≠ some true then
        match decode r.body with
        | some v => { envelopeOfJson v with response := some r }
        | none => { url := some (.str url), response := some r }
      else { url := some (.str url), data := some (.str r.body), response := some r }
    else { url := some (.str url), response := some r }

/-- The JSON value the parse branch of parseResponse substitutes for the
envelope, when that branch is taken and the decode succeeds; `none`
otherwise. -/
def jsonParsedValue (decode : String → Option JsVal) (options : Options)
    (response : Option RawOutcome) : Option JsVal :=
  match response with
  | none => none
  | some r =>
    if r.hasText = true ∧ r.body ≠ "" ∧ ctJson r.contentType = true ∧
        options.noparse ≠ some true then
      decode r.body
    else none

/-- src/index.js lines 122-133: the status check. 401 leaves the envelope
untouched (logout is a notification, not an error); any other non-200 status
assigns error, the fixed message and severity onto the envelope. -/
def statusCheckedEnvelope (decode : String → Option JsVal) (url : String) (options : Options)
    (response : Option RawOutcome) : Envelope :=
  if respStatus response = 401 then initialEnvelope decode url options response
  else if respStatus response ≠ 200 then
    { initialEnvelope decode url options response with
        error := some (.bool true)
        message := some (.str "Could Not Communicate With Server")
        severity := some (.str "error") }
  else initialEnvelope decode url options response

/-- src/index.js lines 142-147: when the envelope is in error and logging is
not suppressed, `resp.message = resp.message || (resp.feedback || {}).error`
replaces a falsy message by the error field of the feedback object. This is
the final state of the envelope. -/
def parsedEnvelope (decode : String → Option JsVal) (url : String) (options : Options)
    (response : Option RawOutcome) : Envelope :=
  if jsTruthy (statusCheckedEnvelope decode url options response).error = true ∧
      options.log ≠ some false then
    { statusCheckedEnvelope decode url options response with
        message :=
          if jsTruthy (statusCheckedEnvelope decode url options response).message = true then
            (statusCheckedEnvelope decode url options response).message
          else
            (statusCheckedEnvelope decode url options response).feedback.bind
              (fun f => getField f "error") }
  else statusCheckedEnvelope decode url options response

/-- The lifecycle notification reasons delivered to the caller-supplied
notify callback (src/index.js: clear, start, stop, feedback, logout, login). -/
inductive NotifyReason where
  | clear
  | start
  | stop
  | feedback
  | logout
  | login
deriving DecidableEq

/-- One notification: the reason and the envelope argument, when one is
passed (feedback and logout receive the envelope; the others no argument). -/
abbrev Event := NotifyReason × Option Envelope

/-- src/index.js lines 122-140 and 152-156: the notifications parseResponse
emits, in source order: logout (status 401 and nologout not exactly true,
with the pre-status-check envelope), feedback (feedback not exactly false and
status not 200 or envelope in error, with the post-status-check envelope),
stop (progress requested), and login (on the throw path of a 401). -/
def parseEvents (decode : String → Option JsVal) (url : String) (options : Options)
    (response : Option RawOutcome) : List Event :=
  (if respStatus response = 401 ∧ options.nologout ≠ some true then
    [(NotifyReason.logout, some (initialEnvelope decode url options response))]
  else []) ++
  (if options.feedback ≠ some false ∧
      (respStatus response ≠ 200 ∨
        jsTruthy (statusCheckedEnvelope decode url options response).error = true) then
    [(NotifyReason.feedback, some (statusCheckedEnvelope decode url options response))]
  else []) ++
  (if options.progress = some true then [(NotifyReason.stop, none)] else []) ++
  (if jsTruthy (parsedEnvelope decode url options response).error = true ∧
      options.throw ≠ some false ∧ respStatus response = 401 then
    [(NotifyReason.login, none)]
  else [])

/-- The final disposition of a call: a thrown NetError (message and the full
envelope as payload), the full envelope (raw mode), or the bare data with the
non-enumerable annotation properties defineProperty added to it. -/
inductive ParseResult where
  | thrown (message : JsVal) (envelope : Envelope)
  | envelope (e : Envelope)
  | dataVal (data : Option JsVal) (schemaAnn : Option JsVal) (countAnn : Option JsVal)

/-- Whether the call ended by throwing. -/
def ParseResult.isThrown : ParseResult → Bool
  | .thrown _ _ => true
  | _ => false

/-- The data component of a returned (non-raw, non-thrown) result. -/
def ParseResult.dataOf : ParseResult → Option (Option JsVal)
  | .dataVal d _ _ => some d
  | _ => none

/-- src/index.js lines 152-175: the value parseResponse produces. In error
with throw not exactly false: NetError with `resp.message` (or the default
message when falsy) and the envelope as payload. With raw exactly true: the
envelope. Otherwise: `resp.data`, annotated with `_schema_` and `_count_`
when data and the corresponding envelope field are truthy. -/
def parseResult (decode : String → Option JsVal) (url : String) (options : Options)
    (response : Option RawOutcome) : ParseResult :=
  if jsTruthy (parsedEnvelope decode url options response).error = true ∧
      options.throw ≠ some false then
    .thrown
      (jsOrVal (parsedEnvelope decode url options response).message
        (.str "Cannot complete operation"))
      (parsedEnvelope decode url options response)
  else if options.raw = some true then
    .envelope (parsedEnvelope decode url options response)
  else
    .dataVal (parsedEnvelope decode url options response).data
      (if jsTruthy (parsedEnvelope decode url options response).data = true ∧
          jsTruthy (parsedEnvelope decode url options response).schema = true then
        (parsedEnvelope decode url options response).schema
      else none)
      (if jsTruthy (parsedEnvelope decode url options response).data = true ∧
          jsTruthy (parsedEnvelope decode url options response).count = true then
        (parsedEnvelope decode url options response).count
      else none)

/-- src/index.js lines 95-176: Net.parseResponse, as emitted events plus the
final disposition. -/
def parseResponseModel (decode : String → Option JsVal) (url : String) (options : Options)
    (response : Option RawOutcome) : List Event × ParseResult :=
  (parseEvents decode url options response, parseResult decode url options response)

/-- Result of Net.fetchRetry: an early bare return because the deadline
already fired (the race winner supplied the outcome), or the `response`
variable at the final return (absent when every attempt failed). -/
inductive RetryOutcome where
  | abandoned
  | response (r : Option RawOutcome)
deriving DecidableEq

/-- src/index.js line 215: `options.retries || 1`: absent or zero means 1. -/
def effRetries (o : Options) : Int :=
  match o.retries with
  | some n => if n = 0 then 1 else n
  | none => 1

/-- src/index.js lines 220-242: the do/while retry loop. `transport i` is the
outcome of the i-th fetch attempt (`none` for a thrown attempt or a falsy
response, both of which land in the catch), `tfired i` whether the deadline
timer had fired when the catch of attempt i runs. `r` is the live `retries`
counter; the Nat fuel equals its positive part and only steps the structural
recursion (the loop itself stops via `--retries > 0`, so the fuel, kept equal
to `r.toNat` by fetchRetryModel, never runs out first). Returns the outcome
and the number of attempts made. -/
def fetchRetryGo (transport : Nat → Option RawOutcome) (tfired : Nat → Bool) :
    Nat → Nat → Int → RetryOutcome × Nat
  | fuel, i, r =>
    match transport i with
    | some resp => (.response (some resp), i + 1)
    | none =>
      if tfired i then (.abandoned, i + 1)
      else if r ≤ 0 then (.response none, i + 1)
      else if r - 1 > 0 then
        match fuel with
        | 0 => (.response none, i + 1)
        | fuel' + 1 => fetchRetryGo transport tfired fuel' (i + 1) (r - 1)
      else (.response none, i + 1)

/-- src/index.js lines 209-243: Net.fetchRetry on a given attempt schedule:
runs the loop with the effective retry budget. (The request arguments built
at lines 211-218 are absorbed into `transport`; their construction on a copy
of the options is modelled separately for the mutation claims.) -/
def fetchRetryModel (transport : Nat → Option RawOutcome) (tfired : Nat → Bool)
    (o : Options) : RetryOutcome × Nat :=
  fetchRetryGo transport tfired (effRetries o).toNat 0 (effRetries o)

/-- The value the fetchRetry promise resolves with: the abandoned early
return is a bare `return`, i.e. undefined. -/
def retryOutcomeVal : RetryOutcome → Option RawOutcome
  | .abandoned => none
  | .response v => v

/-- src/index.js lines 86-89: the Promise race of fetchRetry against the
deadline timer, as a function of the two completion times (in ms): the
first-resolved promise supplies the value. At equal times the scheduler
decides; the model lets the timer win, and the verified properties only use
strict inequalities. -/
def raceModel (retryTime : Nat) (retryVal : Option RawOutcome) (delay : Nat) :
    Option RawOutcome :=
  if retryTime < delay then retryVal else some timeoutOutcome

/-- The response Net.fetch hands to parseResponse: the race of the retry
driver (completing at `retryTime`) against the timer armed with the
configured http timeout in seconds times 1000. -/
def racedResponse (cfg : Config) (transport : Nat → Option RawOutcome) (tfired : Nat → Bool)
    (o : Options) (retryTime : Nat) : Option RawOutcome :=
  raceModel retryTime (retryOutcomeVal (fetchRetryModel transport tfired o).1)
    (cfg.timeouts.http * 1000)

/-- src/index.js lines 64-78: the notifications Net.fetch emits before the
network phase: clear when requested, then start when progress is requested. -/
def fetchPreEvents (o : Options) : List Event :=
  (if o.clear = some true then [(NotifyReason.clear, none)] else []) ++
  (if o.progress = some true then [(NotifyReason.start, none)] else [])

/-- src/index.js lines 62-93: Net.fetch end to end: resolve the URL, race the
retrying request against the deadline timer, and normalize the winner with
parseResponse; the emitted events are the pre-phase ones followed by those of
parseResponse. -/
def fetchModel (decode : String → Option JsVal) (cfg : Config) (origin : String)
    (transport : Nat → Option RawOutcome) (tfired : Nat → Bool) (retryTime : Nat)
    (url : String) (o : Options) : List Event × ParseResult :=
  (fetchPreEvents o ++
    parseEvents decode (resolveUrl cfg o origin url) o
      (racedResponse cfg transport tfired o retryTime),
   parseResult decode (resolveUrl cfg o origin url) o

      (racedResponse cfg transport tfired o retryTime))

/-- src/index.js lines 178-182: Net.get rebinds its local to
`Object.assign({}, options)` before setting the method, so the object the
caller passed is unchanged after the call; this def is that final state. -/
def getCallerOptionsAfter (options : Options) : Options := options

/-- src/index.js lines 184-187: Net.post assigns `options.method = 'POST'`
directly on the object the caller passed (no copy); this def is the state of
the caller-held object after the call. -/
def postCallerOptionsAfter (options : Options) : Options :=
  { options with method := some "POST" }

/-- src/index.js lines 209-218: Net.fetchRetry builds its request descriptor
on `Object.assign({}, options)`; the caller-held options object after the
call. -/
def fetchRetryCallerOptionsAfter (options : Options) : Options := options

/-- src/index.js lines 211-218: the request descriptor fetchRetry passes to
the transport: a copy of the options with method defaulted to POST, mode
defaulted to cors and credentials forced to include. -/
def fetchRetryArgs (options : Options) : Options :=
  { options with
      method := some (options.method.getD "POST")
      mode := some (options.mode.getD "cors")
      credentials := some "include" }

/-- The value returned to the caller on the non-raw path, as a JavaScript
object: the data value together with the state of the non-enumerable
annotation properties defineProperty may have added to it. The `.data` of an
envelope returned in raw mode carries no annotations, because raw mode
returns before the annotation step (src/index.js lines 158-174). -/
structure AnnotatedValue where
  value : Option JsVal
  schemaAnn : Option JsVal := none
  countAnn : Option JsVal := none

/-- Concrete fixture: the body `{"data":{"ok":true}}` of the retry scenario. -/
def bodyOk : String := "\x7b\"data\":\x7b\"ok\":true\x7d\x7d"

/-- Concrete fixture: the body `{"ok":true}` with no data field. -/
def bodyJustOk : String := "\x7b\"ok\":true\x7d"

/-- Concrete fixture: the body `{"error":true}`. -/
def bodyErrTrue : String := "\x7b\"error\":true\x7d"

/-- Concrete fixture: the body `{"data":[1],"schema":"S"}`. -/
def bodySchema : String := "\x7b\"data\":[1],\"schema\":\"S\"\x7d"

/-- Parse of bodyOk. -/
def valOk : JsVal := .obj [("data", .obj [("ok", .bool true)])]

/-- Parse of bodyJustOk. -/
def valJustOk : JsVal := .obj [("ok", .bool true)]

/-- Parse of bodyErrTrue. -/
def valErrTrue : JsVal := .obj [("error", .bool true)]

/-- Parse of bodySchema. -/
def valSchema : JsVal := .obj [("data", .arr [.num 1]), ("schema", .str "S")]

/-- A concrete stand-in for the external JSON decode hook, defined on the
fixture bodies. -/
def decode0 : String → Option JsVal := fun s =>
  if s = bodyOk then some valOk
  else if s = bodyJustOk then some valJustOk
  else if s = bodyErrTrue then some valErrTrue
  else if s = bodySchema then some valSchema
  else none

/-- A 200 JSON response with body bodyOk. -/
def respOk : RawOutcome :=
  { status := 200, hasText := true, body := bodyOk, contentType := some "application/json" }

/-- A 200 JSON response with body bodyJustOk. -/
def respJustOk : RawOutcome :=
  { status := 200, hasText := true, body := bodyJustOk, contentType := some "application/json" }

/-- A 200 JSON response whose body carries error true. -/
def respErr200 : RawOutcome :=
  { status := 200, hasText := true, body := bodyErrTrue, contentType := some "application/json" }

/-- A 401 JSON response whose body carries error true. -/
def respErr401 : RawOutcome :=
  { status := 401, hasText := true, body := bodyErrTrue, contentType := some "application/json" }

/-- A 200 JSON response whose body carries data and schema. -/
def respSchema : RawOutcome :=
  { status := 200, hasText := true, body := bodySchema, contentType := some "application/json" }

/-- Attempt schedule of the retry scenario: the transport throws on the first
two attempts and returns the 200 JSON response on the third. -/
def transport0 : Nat → Option RawOutcome := fun i => if i < 2 then none else some respOk

/-- A deadline-fired flag that never fires. -/
def tfiredNever : Nat → Bool := fun _ => false

/-- The message fixup step touches only the message field. -/
theorem parsedEnvelope_error (d : String → Option JsVal) (u : String) (o : Options)
    (r : Option RawOutcome) :
    (parsedEnvelope d u o r).error = (statusCheckedEnvelope d u o r).error := by
  unfold parsedEnvelope
  split <;> rfl

/-- The message fixup step preserves the url field. -/
theorem parsedEnvelope_url (d : String → Option JsVal) (u : String) (o : Options)
    (r : Option RawOutcome) :
    (parsedEnvelope d u o r).url = (statusCheckedEnvelope d u o r).url := by
  unfold parsedEnvelope
  split <;> rfl

/-- The message fixup step preserves the data field. -/
theorem parsedEnvelope_data (d : String → Option JsVal) (u : String) (o : Options)
    (r : Option RawOutcome) :
    (parsedEnvelope d u o r).data = (statusCheckedEnvelope d u o r).data := by
  unfold parsedEnvelope
  split <;> rfl

/-- The status check touches neither the url nor the data field. -/
theorem statusCheckedEnvelope_url (d : String → Option JsVal) (u : String) (o : Options)
    (r : Option RawOutcome) :
    (statusCheckedEnvelope d u o r).url = (initialEnvelope d u o r).url := by
  unfold statusCheckedEnvelope
  split
  · rfl
  · split <;> rfl

/-- The status check preserves the data field. -/
theorem statusCheckedEnvelope_data (d : String → Option JsVal) (u : String) (o : Options)
    (r : Option RawOutcome) :
    (statusCheckedEnvelope d u o r).data = (initialEnvelope d u o r).data := by
  unfold statusCheckedEnvelope
  split
  · rfl
  · split <;> rfl

/-- C7: evaluation of the code at the failing input. With the noprefix option
set (and nobase absent) and a configured prefix, URL resolution still
prepends the configured prefix, because the code consults only
options.nobase: the noprefix option documented in the module header has no
effect. Under the documented behaviour the result would have been
"https://origin.example/items". -/
theorem noprefix_has_no_effect :
    resolveUrl { prefixVal := "https://api.example.com" } { noprefixFlag := some true }
      "https://origin.example" "items" = "https://api.example.com/items" := by
  rfl

/-- C8 counterexample: Net.post mutates the options object the caller passed:
after a post call with an initially empty options object, that same object
carries method POST, so it does not hold the same fields as before. -/
theorem post_mutates_caller_options :
    postCallerOptionsAfter {} ≠ ({} : Options) := by
  decide

/-- C8 amended: Net.get and Net.fetchRetry merge onto copies and leave the
caller-held options object unchanged, but Net.post sets method to POST
directly on the caller-held object. -/
theorem options_mutation_behavior (o : Options) :
    getCallerOptionsAfter o = o ∧ fetchRetryCallerOptionsAfter o = o ∧
    postCallerOptionsAfter o = { o with method := some "POST" } :=
  ⟨rfl, rfl, rfl⟩

/-- C2 counterexample: with retries 2 and a transport that throws on the
first two attempts and would return 200 `{"data":{"ok":true}}` on the third,
the retry loop makes exactly two attempts, never three, and the call ends by
throwing (no response was obtained), instead of returning `{ok:true}`. -/
theorem retries_two_makes_two_attempts :
    (fetchRetryModel transport0 tfiredNever { retries := some 2 }).2 = 2 ∧
    (fetchRetryModel transport0 tfiredNever { retries := some 2 }).2 ≠ 3 ∧
    ((fetchModel decode0 {} "https://origin.example" transport0 tfiredNever 0 "api/items"
        { retries := some 2 }).2).isThrown = true := by
  exact ⟨rfl, by decide, rfl⟩

/-- C2 amended: the stated scenario needs retries 3: the `retries` option is
the total attempt budget, not a count of additional retries. With retries 3
and a transport that throws on the first two attempts and returns status 200
`{"data":{"ok":true}}` on the third, fetchRetry makes exactly three attempts
and the call returns the value `{ok:true}`; with retries 2 the third attempt
never happens and the call fails (see the counterexample). -/
theorem retries_three_scenario :
    (fetchRetryModel transport0 tfiredNever { retries := some 3 }).2 = 3 ∧
    (fetchModel decode0 {} "https://origin.example" transport0 tfiredNever 0 "api/items"
        { retries := some 3 }).2 =
      .dataVal (some (.obj [("ok", .bool true)])) none none := by
  exact ⟨rfl, rfl⟩

/-- C1: when the configured timeout elapses strictly before the retry driver
settles, the raced response is the synthetic timeout outcome of Net.timeout
(status 444, error true, message "Request timed out, please retry", severity
"error"), for every retry schedule and retry budget; and the events and
outcome of the whole fetch call are independent of what the transport later
does: two runs that differ only in their transport behaviour and in their
(late) retry completion times are identical, so a late transport completion
is discarded and the already settled call never changes. -/
theorem timeout_wins_race (d : String → Option JsVal) (cfg : Config) (origin : String)
    (t t' : Nat → Option RawOutcome) (tf tf' : Nat → Bool) (rt rt' : Nat)
    (url : String) (o : Options)
    (h : cfg.timeouts.http * 1000 < rt) (h' : cfg.timeouts.http * 1000 < rt') :
    racedResponse cfg t tf o rt = some timeoutOutcome ∧
    fetchModel d cfg origin t tf rt url o = fetchModel d cfg origin t' tf' rt' url o := by
  have h1 : racedResponse cfg t tf o rt = some timeoutOutcome := by
    unfold racedResponse raceModel
    rw [if_neg (Nat.not_lt.mpr (Nat.le_of_lt h))]
  have h2 : racedResponse cfg t' tf' o rt' = some timeoutOutcome := by
    unfold racedResponse raceModel
    rw [if_neg (Nat.not_lt.mpr (Nat.le_of_lt h'))]
  refine ⟨h1, ?_⟩
  unfold fetchModel
  rw [h1, h2]

/-- C1 witness: with the default 30 second timeout and a retry driver that
settles only after the deadline, the race yields the timeout outcome and the
result does not depend on the transport. -/
theorem timeout_wins_race_witness :
    racedResponse {} (fun _ => none) tfiredNever {} 40000 = some timeoutOutcome ∧
    fetchModel decode0 {} "https://origin.example" (fun _ => none) tfiredNever 40000
        "api" {} =
      fetchModel decode0 {} "https://origin.example" (fun _ => some respOk) tfiredNever
        35000 "api" {} :=
  timeout_wins_race decode0 {} "https://origin.example" (fun _ => none) (fun _ => some respOk)
    tfiredNever tfiredNever 40000 35000 "api" {} (by decide) (by decide)

/-- C3 counterexample: a status 200 response whose JSON body is
`{"error":true}` yields an envelope with error set, because the parsed body
replaces the envelope; so error can be true although the status is 200. -/
theorem status200_error_flag_from_body :
    respStatus (some respErr200) = 200 ∧
    jsTruthy (parsedEnvelope decode0 "https://x" {} (some respErr200)).error = true := by
  exact ⟨rfl, rfl⟩

/-- C3 amended: the envelope error is truthy exactly when the status check
fired (resolved status neither 200 nor 401, an absent response resolving to
444) or the parsed JSON body itself carried a truthy error field; in
particular a status 200 response yields an error envelope exactly when its
own body sets one. -/
theorem error_flag_iff_status_or_body_error (d : String → Option JsVal) (u : String)
    (o : Options) (r : Option RawOutcome) :
    jsTruthy (parsedEnvelope d u o r).error = true ↔
      ((respStatus r ≠ 200 ∧ respStatus r ≠ 401) ∨
        jsTruthy (initialEnvelope d u o r).error = true) := by
  rw [parsedEnvelope_error]
  unfold statusCheckedEnvelope
  by_cases h401 : respStatus r = 401
  · simp [h401]
  · by_cases h200 : respStatus r = 200
    · simp [h401, h200]
    · simp [h401, h200, jsTruthy, JsVal.truthy]

/-- C4: for a call whose envelope is in error: with throw exactly false the
call does not throw (it returns the envelope or the data); otherwise it
throws, the thrown message being the envelope message when truthy and the
default "Cannot complete operation" otherwise, with the full envelope as the
payload. -/
theorem throw_flag_behavior (d : String → Option JsVal) (u : String) (o : Options)
    (r : Option RawOutcome)
    (herr : jsTruthy (parsedEnvelope d u o r).error = true) :
    (o.throw = some false → (parseResult d u o r).isThrown = false) ∧
    (o.throw ≠ some false →
      parseResult d u o r =
        .thrown (jsOrVal (parsedEnvelope d u o r).message (.str "Cannot complete operation"))
          (parsedEnvelope d u o r)) := by
  constructor
  · intro hth
    unfold parseResult
    rw [if_neg (by simp [hth])]
    split <;> rfl
  · intro hth
    unfold parseResult
    rw [if_pos ⟨herr, hth⟩]

/-- C4 witness: an absent response (status resolved to 444) with default
options throws the generic message with the envelope as payload. -/
theorem throw_flag_behavior_witness :
    parseResult decode0 "https://x" {} none =
      .thrown
        (jsOrVal (parsedEnvelope decode0 "https://x" {} none).message
          (.str "Cannot complete operation"))
        (parsedEnvelope decode0 "https://x" {} none) :=
  (throw_flag_behavior decode0 "https://x" {} none rfl).2 (by decide)

/-- C10 counterexample: when the body parses as JSON the envelope is the
parsed object, so the resolved request url is dropped: here the parsed body
has no url field and the envelope url is absent rather than the request
url. -/
theorem json_parse_drops_url :
    (parsedEnvelope decode0 "https://x/api" {} (some respJustOk)).url ≠
      some (JsVal.str "https://x/api") := by
  have h : (parsedEnvelope decode0 "https://x/api" {} (some respJustOk)).url = none := rfl
  rw [h]
  simp

/-- C10 amended: the envelope carries the resolved request url in every
outcome shape EXCEPT a successful JSON parse: when the parse branch is taken
and the decode succeeds, the parsed object replaces the envelope and the url
field is whatever the body carried (typically absent). -/
theorem envelope_url_characterization (d : String → Option JsVal) (u : String)
    (o : Options) (r : Option RawOutcome) :
    (parsedEnvelope d u o r).url =
      (match jsonParsedValue d o r with
       | some v => getField v "url"
       | none => some (.str u)) := by
  rw [parsedEnvelope_url, statusCheckedEnvelope_url]
  unfold initialEnvelope jsonParsedValue
  match r with
  | none => rfl
  | some resp =>
    by_cases ht : resp.hasText = true
    · by_cases hc : resp.body ≠ "" ∧ ctJson resp.contentType = true ∧ o.noparse ≠ some true
      · obtain ⟨h1, h2, h3⟩ := hc
        simp only [ht, h1, h2, h3, if_pos, true_and, not_false_eq_true, and_true, if_true]
        cases d resp.body <;> simp [envelopeOfJson, h1, h3]
      · simp only [ht, true_and, if_neg hc]
        simp [envelopeOfJson]
    · have ht' : resp.hasText = false := by
        cases h : resp.hasText
        · rfl
        · exact absurd h ht
      simp [ht']

/-- C5 counterexample: a status 200 JSON response with body `{"ok":true}` (no
data field) returns undefined, not the parsed JSON body: the non-raw path
returns the data FIELD of the parsed object, not the object. -/
theorem status200_json_returns_data_not_body :
    parseResult decode0 "https://x" {} (some respJustOk) =
      ParseResult.dataVal none none none ∧
    (none : Option JsVal) ≠ some (JsVal.obj [("ok", JsVal.bool true)]) := by
  exact ⟨rfl, by simp⟩

/-- C5 amended: for a status 200 response with a nonempty JSON body (default
noparse and raw), when the decode succeeds and the parsed body does not
itself carry a truthy error field, the returned value is the data field of
the parsed body, and the only notification parseResponse can emit is stop
(in particular neither feedback nor logout fires). -/
theorem status200_json_success_returns_data_field (d : String → Option JsVal) (u : String)
    (o : Options) (r : RawOutcome) (v : JsVal)
    (hst : r.status = 200) (htx : r.hasText = true) (hbody : r.body ≠ "")
    (hct : ctJson r.contentType = true) (hnp : o.noparse ≠ some true)
    (hraw : o.raw ≠ some true) (hdec : d r.body = some v)
    (herr : jsTruthy (getField v "error") = false) :
    (parseResult d u o (some r)).dataOf = some (getField v "data") ∧
    parseEvents d u o (some r) =
      (if o.progress = some true then [(NotifyReason.stop, none)] else []) := by
  have hs : respStatus (some r) = 200 := by simp [respStatus, hst]
  have h0 : initialEnvelope d u o (some r) =
      { envelopeOfJson v with response := some r } := by
    unfold initialEnvelope
    simp [htx, hbody, hct, hnp, hdec]
  have h1 : statusCheckedEnvelope d u o (some r) = initialEnvelope d u o (some r) := by
    unfold statusCheckedEnvelope
    rw [if_neg (by simp [hs]), if_neg (by simp [hs]) ]
  have herr0 : jsTruthy (initialEnvelope d u o (some r)).error = false := by
    rw [h0]
    simpa [envelopeOfJson] using herr
  have herr1 : jsTruthy (statusCheckedEnvelope d u o (some r)).error = false := by
    rw [h1]; exact herr0
  have h2 : parsedEnvelope d u o (some r) = statusCheckedEnvelope d u o (some r) := by
    unfold parsedEnvelope
    rw [if_neg (by simp [herr1])]
  have herr2 : jsTruthy (parsedEnvelope d u o (some r)).error = false := by
    rw [h2]; exact herr1
  constructor
  · unfold parseResult
    rw [if_neg (by simp [herr2]), if_neg hraw]
    unfold ParseResult.dataOf
    rw [parsedEnvelope_data, statusCheckedEnvelope_data, h0]
    simp [envelopeOfJson]
  · have hlogout : ¬(respStatus (some r) = 401 ∧ o.nologout ≠ some true) := by
      simp [hs]
    have hfb : ¬(o.feedback ≠ some false ∧
        (respStatus (some r) ≠ 200 ∨
          jsTruthy (statusCheckedEnvelope d u o (some r)).error = true)) := by
      simp [hs, herr1]
    have hlogin : ¬(jsTruthy (parsedEnvelope d u o (some r)).error = true ∧
        o.throw ≠ some false ∧ respStatus (some r) = 401) := by
      simp [herr2]
    unfold parseEvents
    rw [if_neg hlogout, if_neg hfb, if_neg hlogin]
    simp

/-- C5 witness: a concrete status 200 JSON call with body
`{"data":{"ok":true}}` and default options returns the data field and emits
no notification. -/
theorem status200_json_success_witness :
    (parseResult decode0 "https://x" {} (some respOk)).dataOf =
      some (getField valOk "data") ∧
    parseEvents decode0 "https://x" {} (some respOk) =
      (if ({} : Options).progress = some true then [(NotifyReason.stop, none)] else []) :=
  status200_json_success_returns_data_field decode0 "https://x" {} respOk valOk rfl rfl
    (by decide) rfl (by decide) (by decide) rfl rfl

/-- C6: for a 401 response: the logout notification fires exactly when
nologout is not exactly true (carrying the pre-status-check envelope); the
status check itself leaves the error field untouched (the envelope is in
error only if its own body set the flag); and when such a call does fail on
the throw path, the login notification is among the emitted events and the
call ends by throwing. -/
theorem status401_notifications (d : String → Option JsVal) (u : String) (o : Options)
    (r : Option RawOutcome) (h401 : respStatus r = 401) :
    (((NotifyReason.logout, some (initialEnvelope d u o r)) ∈ parseEvents d u o r) ↔
      o.nologout ≠ some true) ∧
    (statusCheckedEnvelope d u o r).error = (initialEnvelope d u o r).error ∧
    (jsTruthy (parsedEnvelope d u o r).error = true ∧ o.throw ≠ some false →
      ((NotifyReason.login, (none : Option Envelope)) ∈ parseEvents d u o r) ∧
      (parseResult d u o r).isThrown = true) := by
  refine ⟨?_, ?_, ?_⟩
  · unfold parseEvents
    by_cases hno : o.nologout = some true
    · rw [if_neg (show ¬(respStatus r = 401 ∧ o.nologout ≠ some true) by simp [hno])]
      simp only [hno, List.nil_append, ne_eq, not_true_eq_false, iff_false]
      split_ifs <;> simp
    · rw [if_pos ⟨h401, hno⟩]
      simp [hno]
  · unfold statusCheckedEnvelope
    rw [if_pos h401]
  · rintro ⟨he, ht⟩
    constructor
    · unfold parseEvents
      rw [if_pos (show jsTruthy (parsedEnvelope d u o r).error = true ∧
          o.throw ≠ some false ∧ respStatus r = 401 from ⟨he, ht, h401⟩)]
      simp
    · unfold parseResult
      rw [if_pos ⟨he, ht⟩]
      rfl

/-- C6 witness: a concrete 401 JSON response whose body sets error, with
default options: logout fires, the status check added no error of its own,
login is emitted and the call throws. -/
theorem status401_notifications_witness :
    (((NotifyReason.logout,
        some (initialEnvelope decode0 "https://x" {} (some respErr401))) ∈
          parseEvents decode0 "https://x" {} (some respErr401)) ↔
      ({} : Options).nologout ≠ some true) ∧
    (statusCheckedEnvelope decode0 "https://x" {} (some respErr401)).error =
      (initialEnvelope decode0 "https://x" {} (some respErr401)).error ∧
    ((NotifyReason.login, (none : Option Envelope)) ∈
      parseEvents decode0 "https://x" {} (some respErr401)) ∧
    (parseResult decode0 "https://x" {} (some respErr401)).isThrown = true := by
  have h := status401_notifications decode0 "https://x" {} (some respErr401) rfl
  have h3 := h.2.2 ⟨rfl, by decide⟩
  exact ⟨h.1, h.2.1, h3.1, h3.2⟩

/-- The final envelope does not depend on the raw option: raw is consulted
only when choosing what to return. -/
theorem parsedEnvelope_raw_irrel (d : String → Option JsVal) (u : String) (o : Options)
    (r : Option RawOutcome) (b : Option Bool) :
    parsedEnvelope d u { o with raw := b } r = parsedEnvelope d u o r := rfl

/-- C9 counterexample: same transport outcome (status 200, body
`{"data":[1],"schema":"S"}`): the raw call returns the envelope whose data is
the bare `[1]` (raw mode returns before the annotation step, so the data
object carries no annotations), while the default call returns `[1]`
annotated with a non-enumerable schema property; so the two values differ in
annotation state. -/
theorem raw_envelope_data_not_annotated :
    parseResult decode0 "https://x" { raw := some true } (some respSchema) =
      ParseResult.envelope
        (parsedEnvelope decode0 "https://x" { raw := some true } (some respSchema)) ∧
    (parsedEnvelope decode0 "https://x" { raw := some true } (some respSchema)).data =
      some (JsVal.arr [JsVal.num 1]) ∧
    parseResult decode0 "https://x" {} (some respSchema) =
      ParseResult.dataVal (some (JsVal.arr [JsVal.num 1])) (some (JsVal.str "S")) none ∧
    ({ value := some (JsVal.arr [JsVal.num 1]) } : AnnotatedValue) ≠
      { value := some (JsVal.arr [JsVal.num 1]), schemaAnn := some (JsVal.str "S") } := by
  refine ⟨rfl, rfl, rfl, ?_⟩
  simp [AnnotatedValue.mk.injEq]

/-- C9 amended: for the same inputs, on any call that does not throw, the
raw variant returns the envelope and the non-raw variant returns exactly
that envelope's data field as the underlying value; they agree up to the
non-enumerable annotations, which only the non-raw path applies. -/
theorem raw_roundtrip_data_equal (d : String → Option JsVal) (u : String) (o : Options)
    (r : Option RawOutcome)
    (hraw : o.raw ≠ some true)
    (hne : ¬(jsTruthy (parsedEnvelope d u o r).error = true ∧ o.throw ≠ some false)) :
    parseResult d u { o with raw := some true } r =
      ParseResult.envelope (parsedEnvelope d u o r) ∧
    (parseResult d u o r).dataOf = some ((parsedEnvelope d u o r).data) := by
  constructor
  · unfold parseResult
    rw [parsedEnvelope_raw_irrel]
    rw [if_neg (show ¬(jsTruthy (parsedEnvelope d u o r).error = true ∧
        ({ o with raw := some true } : Options).throw ≠ some false) from hne)]
    rw [if_pos (show ({ o with raw := some true } : Options).raw = some true from rfl)]
  · unfold parseResult
    rw [if_neg hne, if_neg hraw]
    rfl

/-- C9 witness: concrete 200 JSON call: the raw variant returns the envelope
and the default variant returns its data field. -/
theorem raw_roundtrip_witness :
    parseResult decode0 "https://x" { raw := some true } (some respOk) =
      ParseResult.envelope (parsedEnvelope decode0 "https://x" {} (some respOk)) ∧
    (parseResult decode0 "https://x" {} (some respOk)).dataOf =
      some ((parsedEnvelope decode0 "https://x" {} (some respOk)).data) :=
  raw_roundtrip_data_equal decode0 "https://x" {} (some respOk) (by decide) (by decide)
